import Mathlib

/-!
# Verification of the streaming-server input back-channel

Shallow embedding of the input-injection core shared by `input_server.py`
and `webrtc_stream.py` (class `InputInjector`), together with the binary
event codec shared with `receiver.py` and the greedy datagram decode loop.

Device writes are modelled as a list of emitted primitives; the module
global `active_slots` set (a Python `set` of clamped slot integers) is
modelled as a `Finset ℤ` threaded through `handle_event`.
-/

namespace StreamingServer

/- Linux evdev constants (values from linux/input-event-codes.h, as bound
by python-evdev's `ecodes`). -/

def EV_KEY : ℤ := 1

def EV_ABS : ℤ := 3

def ABS_X : ℤ := 0

def ABS_Y : ℤ := 1

def ABS_MT_SLOT : ℤ := 47

def ABS_MT_POSITION_X : ℤ := 53

def ABS_MT_POSITION_Y : ℤ := 54

def ABS_MT_TRACKING_ID : ℤ := 57

def BTN_TOUCH : ℤ := 330

/- Constants from input_server.py / webrtc_stream.py / receiver.py. -/

def STREAM_WIDTH : ℤ := 1280

def STREAM_HEIGHT : ℤ := 720

def MAX_TOUCH_SLOTS : ℤ := 10

def EVT_MOUSE_MOVE : ℕ := 0

def EVT_MOUSE_DOWN : ℕ := 1

def EVT_MOUSE_UP : ℕ := 2

def EVT_KEY_DOWN : ℕ := 3

def EVT_KEY_UP : ℕ := 4

/-- A device primitive emitted by the injector: either a state write
`dev.write(etype, code, value)` or the synchronization barrier `dev.syn()`. -/
inductive Prim where
  | write (etype code value : ℤ)
  | syn
deriving DecidableEq

/-- Function `handle_event(dev, evt_type, arg1, arg2, arg3, arg4)` from
input_server.py (identical to `InputInjector.handle_event` in
webrtc_stream.py, whose slot bound `MAX_TOUCH_SLOTS - 1` equals the
literal 9 used here).  The mutable module global `active_slots` is passed
in and the updated set is returned, paired with the list of device
primitives written, in emission order. -/
def handle_event (evt_type : ℕ) (arg1 arg2 arg3 arg4 : ℤ) (active_slots : Finset ℤ) :
    Finset ℤ × List Prim :=
  let slot := max 0 (min 9 arg3)
  if evt_type = EVT_MOUSE_MOVE then
    (active_slots,
      [Prim.write EV_ABS ABS_MT_SLOT slot,
       Prim.write EV_ABS ABS_MT_POSITION_X arg1,
       Prim.write EV_ABS ABS_MT_POSITION_Y arg2]
      ++ (if slot = 0 then
            [Prim.write EV_ABS ABS_X arg1, Prim.write EV_ABS ABS_Y arg2]
          else [])
      ++ [Prim.syn])
  else if evt_type = EVT_MOUSE_DOWN then
    let new_active := insert slot active_slots
    (new_active,
      [Prim.write EV_ABS ABS_MT_SLOT slot,
       Prim.write EV_ABS ABS_MT_TRACKING_ID slot,
       Prim.write EV_ABS ABS_MT_POSITION_X arg1,
       Prim.write EV_ABS ABS_MT_POSITION_Y arg2]
      ++ (if new_active.card = 1 then [Prim.write EV_KEY BTN_TOUCH 1] else [])
      ++ (if slot = 0 then
            [Prim.write EV_ABS ABS_X arg1, Prim.write EV_ABS ABS_Y arg2]
          else [])
      ++ [Prim.syn])
  else if evt_type = EVT_MOUSE_UP then
    let new_active := active_slots.erase slot
    (new_active,
      [Prim.write EV_ABS ABS_MT_SLOT slot,
       Prim.write EV_ABS ABS_MT_TRACKING_ID (-1)]
      ++ (if new_active = ∅ then [Prim.write EV_KEY BTN_TOUCH 0] else [])
      ++ [Prim.syn])
  else if evt_type = EVT_KEY_DOWN then
    (active_slots, [Prim.write EV_KEY arg1 1, Prim.syn])
  else if evt_type = EVT_KEY_UP then
    (active_slots, [Prim.write EV_KEY arg1 0, Prim.syn])
  else
    (active_slots, [])

example :
    Prim.write EV_KEY BTN_TOUCH 1 ∈
      (handle_event EVT_MOUSE_DOWN 7 8 0 0 {0}).2 := by decide

example : (handle_event EVT_MOUSE_DOWN 5 6 0 0 ∅).1 = {0} := by decide

/-- Teardown path of both servers: `StreamServer.cleanup` (webrtc_stream.py)
calls `self.input_injector.close()` directly, and `on_signal`
(input_server.py) calls `dev.close()` directly.  Neither path writes any
device primitive nor touches `active_slots` before the handle is
released, so the flush emitted at cancellation is empty and the slot set
is left as-is. -/
def cleanup_flush (active_slots : Finset ℤ) : Finset ℤ × List Prim :=
  (active_slots, [])

/-!
## Event codec

Wire format `EVENT_FMT = "<BIhhhh"` (13 bytes, little-endian), shared by
receiver.py's `make_event` (sender side, `struct.pack`) and the two
servers' decode loops (`struct.unpack_from`).  A byte is a `ℕ` (values
`< 256` on real buffers); a record is a `List ℕ` of length 13.
-/

/-- The decoded wire unit: `| type(u8) | timestamp(u32) | arg1..arg4(i16) |`. -/
structure InputEvent where
  kind : ℕ
  timestamp : ℕ
  arg1 : ℤ
  arg2 : ℤ
  arg3 : ℤ
  arg4 : ℤ
deriving DecidableEq

/-- Two little-endian bytes of a `u16` value. -/
def encodeU16 (v : ℕ) : List ℕ :=
  [v % 256, v / 256 % 256]

/-- Four little-endian bytes of a `u32` value. -/
def encodeU32 (v : ℕ) : List ℕ :=
  [v % 256, v / 256 % 256, v / 65536 % 256, v / 16777216 % 256]

/-- Two little-endian bytes of an `i16` value, two's complement
(`struct.pack "<h"` on an in-range value). -/
def encodeI16 (v : ℤ) : List ℕ :=
  encodeU16 (v % 65536).toNat

/-- Function `make_event` from receiver.py: `struct.pack(EVENT_FMT, evt_type, ts,
arg1, arg2, arg3, arg4)`.  `struct.pack` raises on out-of-range fields;
this total embedding reduces each field modulo its width instead, and the
round-trip theorem assumes the fields in range, where the two agree
byte-for-byte. -/
def make_event (e : InputEvent) : List ℕ :=
  [e.kind % 256] ++ encodeU32 e.timestamp
    ++ encodeI16 e.arg1 ++ encodeI16 e.arg2 ++ encodeI16 e.arg3 ++ encodeI16 e.arg4

/-- A signed 16-bit value from two little-endian bytes (`struct.unpack "<h"`). -/
def decodeI16 (lo hi : ℕ) : ℤ :=
  let u := lo + 256 * hi
  if u < 32768 then (u : ℤ) else (u : ℤ) - 65536

/-- One call `struct.unpack_from(EVENT_FMT, data, offset)` applied to one 13-byte
record (total: the callers only invoke it after checking that 13 bytes
remain, and unpacking 13 bytes cannot fail). -/
def unpack13 (bs : List ℕ) : InputEvent :=
  match bs with
  | [b0, b1, b2, b3, b4, b5, b6, b7, b8, b9, b10, b11, b12] =>
      ⟨b0, b1 + 256 * b2 + 65536 * b3 + 16777216 * b4,
        decodeI16 b5 b6, decodeI16 b7 b8, decodeI16 b9 b10, decodeI16 b11 b12⟩
  | _ => ⟨0, 0, 0, 0, 0, 0⟩

/-- Contract `decode(13 bytes) -> event | FormatError` of the codec in the
spec; fails exactly when the input is not one whole 13-byte record. -/
def decode_record (bs : List ℕ) : Option InputEvent :=
  if bs.length = 13 then some (unpack13 bs) else none

/-- The greedy multi-record decode loop shared by `main` (input_server.py)
and `_on_data_channel_message` (webrtc_stream.py):
`while offset + EVENT_SIZE <= len(data): unpack_from(...); offset += 13`.
The leading `if len(data) < EVENT_SIZE: return/continue` of the callers is
subsumed by the loop guard. -/
def decode_datagram : List ℕ → List InputEvent
  | b0 :: b1 :: b2 :: b3 :: b4 :: b5 :: b6 :: b7 :: b8 :: b9 :: b10 :: b11 :: b12 :: rest =>
      unpack13 [b0, b1, b2, b3, b4, b5, b6, b7, b8, b9, b10, b11, b12]
        :: decode_datagram rest
  | _ => []

/-- Fold `handle_event` over a decoded event list, as each server's
receive loop does, threading the `active_slots` state. -/
def applyEvents (evs : List InputEvent) (active : Finset ℤ) : Finset ℤ :=
  match evs with
  | [] => active
  | e :: rest =>
      applyEvents rest (handle_event e.kind e.arg1 e.arg2 e.arg3 e.arg4 active).1

example :
    decode_record (make_event ⟨1, 5000, 100, 200, 0, 0⟩) =
      some ⟨1, 5000, 100, 200, 0, 0⟩ := by decide

example :
    (decode_datagram (make_event ⟨1, 5000, 100, 200, 0, 0⟩ ++ [9, 9, 9, 9, 9])).length
      = 1 := by decide

/-!
## Claim theorems
-/

/-- C1, counterexample: from the all-inactive state, `DOWN(slot=0)` makes
slot 0 the sole active slot; a second `DOWN` on that same slot keeps the
active-slot count at 1 (no 0→1 transition), yet the injector emits the
press-edge `BTN_TOUCH ON` again, so the press-edge is not emitted iff the
count transitions 0→1. -/
theorem C1_counterexample :
    (handle_event EVT_MOUSE_DOWN 5 6 0 0 ∅).1 = {0} ∧
    ({0} : Finset ℤ).card = 1 ∧
    ((handle_event EVT_MOUSE_DOWN 7 8 0 0 {0}).1).card = 1 ∧
    Prim.write EV_KEY BTN_TOUCH 1 ∈ (handle_event EVT_MOUSE_DOWN 7 8 0 0 {0}).2 := by
  decide

/-- C1 (amended): the injector emits the press-edge `BTN_TOUCH ON` iff the
event is a `DOWN` that leaves the active-slot count at exactly 1 (which
covers the 0→1 transition but also a repeated `DOWN` on the already sole
active slot), or degenerately a `KEY_DOWN` whose key code is `BTN_TOUCH`'s
code; it emits the release-edge `BTN_TOUCH OFF` iff the event is an `UP`
that leaves the active-slot set empty (which covers the 1→0 transition but
also an `UP` while no slot is active), or a `KEY_UP` with `BTN_TOUCH`'s
code. -/
theorem C1_edges_amended (evt_type : ℕ) (arg1 arg2 arg3 arg4 : ℤ) (active : Finset ℤ) :
    (Prim.write EV_KEY BTN_TOUCH 1 ∈ (handle_event evt_type arg1 arg2 arg3 arg4 active).2 ↔
      ((evt_type = EVT_MOUSE_DOWN ∧ (insert (max 0 (min 9 arg3)) active).card = 1) ∨
        (evt_type = EVT_KEY_DOWN ∧ arg1 = BTN_TOUCH))) ∧
    (Prim.write EV_KEY BTN_TOUCH 0 ∈ (handle_event evt_type arg1 arg2 arg3 arg4 active).2 ↔
      ((evt_type = EVT_MOUSE_UP ∧ active.erase (max 0 (min 9 arg3)) = ∅) ∨
        (evt_type = EVT_KEY_UP ∧ arg1 = BTN_TOUCH))) := by
  simp only [handle_event]
  split_ifs <;>
    simp_all [EVT_MOUSE_MOVE, EVT_MOUSE_DOWN, EVT_MOUSE_UP, EVT_KEY_DOWN, EVT_KEY_UP,
      EV_KEY, EV_ABS, BTN_TOUCH, ABS_X, ABS_Y, ABS_MT_SLOT, ABS_MT_POSITION_X,
      ABS_MT_POSITION_Y, ABS_MT_TRACKING_ID, eq_comm]

/-- C2, counterexample: a `MOVE` carrying the out-of-range coordinates
`arg1 = -5`, `arg2 = 9999` writes exactly those values to the multi-touch
position axes (and the slot-0 mirror axes), unclamped: `-5 < 0` and
`9999 > STREAM_HEIGHT - 1`, so coordinates are not clamped into
`[0, STREAM_WIDTH-1] × [0, STREAM_HEIGHT-1]` at injection. -/
theorem C2_counterexample :
    Prim.write EV_ABS ABS_MT_POSITION_X (-5) ∈
        (handle_event EVT_MOUSE_MOVE (-5) 9999 0 0 ∅).2 ∧
    Prim.write EV_ABS ABS_MT_POSITION_Y 9999 ∈
        (handle_event EVT_MOUSE_MOVE (-5) 9999 0 0 ∅).2 ∧
    (-5 : ℤ) < 0 ∧ STREAM_HEIGHT - 1 < (9999 : ℤ) := by
  decide

/-- C2 (amended): for every `MOVE` or `DOWN` event the injector applies,
the X and Y values written to the multi-touch position axes are exactly
the received `arg1` and `arg2`, unmodified — the injector performs no
clamping (and no rejection) of coordinates; only the slot in `arg3` is
clamped. -/
theorem C2_positions_amended (evt_type : ℕ) (arg1 arg2 arg3 arg4 : ℤ) (active : Finset ℤ)
    (h : evt_type = EVT_MOUSE_MOVE ∨ evt_type = EVT_MOUSE_DOWN) :
    (∀ v : ℤ, Prim.write EV_ABS ABS_MT_POSITION_X v ∈
        (handle_event evt_type arg1 arg2 arg3 arg4 active).2 ↔ v = arg1) ∧
    (∀ v : ℤ, Prim.write EV_ABS ABS_MT_POSITION_Y v ∈
        (handle_event evt_type arg1 arg2 arg3 arg4 active).2 ↔ v = arg2) := by
  simp only [handle_event]
  rcases h with h | h <;> subst h <;>
    split_ifs <;>
      simp_all [EVT_MOUSE_MOVE, EVT_MOUSE_DOWN, EVT_MOUSE_UP, EVT_KEY_DOWN, EVT_KEY_UP,
        EV_KEY, EV_ABS, BTN_TOUCH, ABS_X, ABS_Y, ABS_MT_SLOT, ABS_MT_POSITION_X,
        ABS_MT_POSITION_Y, ABS_MT_TRACKING_ID, eq_comm]

/-- C2, witness: the amended theorem applied to the `MOVE` of the
counterexample recovers that `-5` is written as the X position. -/
theorem C2_positions_witness :
    Prim.write EV_ABS ABS_MT_POSITION_X (-5) ∈
      (handle_event EVT_MOUSE_MOVE (-5) 9999 0 0 ∅).2 :=
  ((C2_positions_amended EVT_MOUSE_MOVE (-5) 9999 0 0 ∅ (Or.inl rfl)).1 (-5)).mpr rfl

/-- C3, code evaluation at the failing state: with slots `{0, 1}` active
at transport cancellation, the teardown path emits no device primitive at
all — in particular no release-edge — and leaves both slots marked active
at the moment the device handle is released, contradicting the required
all-fingers-up flush. -/
theorem C3_no_flush :
    (cleanup_flush {0, 1}).2 = [] ∧
    (cleanup_flush {0, 1}).1 = {0, 1} ∧
    Prim.write EV_KEY BTN_TOUCH 0 ∉ (cleanup_flush {0, 1}).2 := by
  decide

/-- C4, counterexample: from the all-inactive state, the concrete tap
`DOWN(x=100, y=200, slot=0)` then `UP(slot=0)` does not emit the sequence
claimed (slot, tracking-id, position, mirror, press-edge, barrier; slot,
clear-tracking-id, release-edge, barrier): the press-edge is emitted
before the slot-0 mirror writes, not after them. -/
theorem C4_counterexample :
    (handle_event EVT_MOUSE_DOWN 100 200 0 0 ∅).2 ++
        (handle_event EVT_MOUSE_UP 0 0 0 0 (handle_event EVT_MOUSE_DOWN 100 200 0 0 ∅).1).2 ≠
      [Prim.write EV_ABS ABS_MT_SLOT 0, Prim.write EV_ABS ABS_MT_TRACKING_ID 0,
       Prim.write EV_ABS ABS_MT_POSITION_X 100, Prim.write EV_ABS ABS_MT_POSITION_Y 200,
       Prim.write EV_ABS ABS_X 100, Prim.write EV_ABS ABS_Y 200,
       Prim.write EV_KEY BTN_TOUCH 1, Prim.syn,
       Prim.write EV_ABS ABS_MT_SLOT 0, Prim.write EV_ABS ABS_MT_TRACKING_ID (-1),
       Prim.write EV_KEY BTN_TOUCH 0, Prim.syn] := by
  decide

/-- C4 (amended): from the all-inactive state, `DOWN(x=100, y=200, slot=0)`
then `UP(slot=0)` emits exactly: select-slot 0, set-tracking-id 0,
set-position (100, 200), press-edge ON, mirror X=100/Y=200, barrier; then
select-slot 0, clear-tracking-id (-1), release-edge OFF, barrier — the
press-edge precedes the slot-0 mirror writes. -/
theorem C4_single_tap_amended :
    (handle_event EVT_MOUSE_DOWN 100 200 0 0 ∅).2 ++
        (handle_event EVT_MOUSE_UP 0 0 0 0 (handle_event EVT_MOUSE_DOWN 100 200 0 0 ∅).1).2 =
      [Prim.write EV_ABS ABS_MT_SLOT 0, Prim.write EV_ABS ABS_MT_TRACKING_ID 0,
       Prim.write EV_ABS ABS_MT_POSITION_X 100, Prim.write EV_ABS ABS_MT_POSITION_Y 200,
       Prim.write EV_KEY BTN_TOUCH 1,
       Prim.write EV_ABS ABS_X 100, Prim.write EV_ABS ABS_Y 200, Prim.syn,
       Prim.write EV_ABS ABS_MT_SLOT 0, Prim.write EV_ABS ABS_MT_TRACKING_ID (-1),
       Prim.write EV_KEY BTN_TOUCH 0, Prim.syn] := by
  decide

/-- C5, counterexample: a `KEY_DOWN` whose key code `arg1` is zero still
emits a key-edge for code 0 followed by a barrier — the injector does not
drop zero/unknown key codes (that filtering happens in the senders, which
never transmit code 0). -/
theorem C5_counterexample :
    (handle_event EVT_KEY_DOWN 0 0 0 0 ∅).2 ≠ [] ∧
    (handle_event EVT_KEY_DOWN 0 0 0 0 ∅).2 = [Prim.write EV_KEY 0 1, Prim.syn] := by
  decide

/-- C5 (amended): for every `KEY_DOWN` or `KEY_UP` event, whatever the key
code in `arg1` (zero, unknown, or known), the injector emits exactly one
key-edge for that code followed by a barrier, and leaves the active-slot
state unchanged. -/
theorem C5_key_events_amended (code arg2 arg3 arg4 : ℤ) (active : Finset ℤ) :
    handle_event EVT_KEY_DOWN code arg2 arg3 arg4 active
        = (active, [Prim.write EV_KEY code 1, Prim.syn]) ∧
    handle_event EVT_KEY_UP code arg2 arg3 arg4 active
        = (active, [Prim.write EV_KEY code 0, Prim.syn]) := by
  constructor <;> rfl

/-- C6: for every in-range `arg3` carried by a `MOVE`, `DOWN` or `UP`
event, the slot the injector applies the event to — the value written by
the select-slot primitive, the slot inserted by `DOWN`, and the slot
removed by `UP` — is `max 0 (min 9 arg3)`. -/
theorem C6_slot_clamped (evt_type : ℕ) (arg1 arg2 arg3 arg4 : ℤ) (active : Finset ℤ)
    (hlo : -32768 ≤ arg3) (hhi : arg3 ≤ 32767)
    (hk : evt_type = EVT_MOUSE_MOVE ∨ evt_type = EVT_MOUSE_DOWN ∨ evt_type = EVT_MOUSE_UP) :
    (∀ s : ℤ, Prim.write EV_ABS ABS_MT_SLOT s ∈
        (handle_event evt_type arg1 arg2 arg3 arg4 active).2 ↔ s = max 0 (min 9 arg3)) ∧
    (handle_event EVT_MOUSE_DOWN arg1 arg2 arg3 arg4 active).1
        = insert (max 0 (min 9 arg3)) active ∧
    (handle_event EVT_MOUSE_UP arg1 arg2 arg3 arg4 active).1
        = active.erase (max 0 (min 9 arg3)) := by
  refine ⟨fun s => ?_, rfl, rfl⟩
  rcases hk with h | h | h <;> subst h <;>
    simp [handle_event, EVT_MOUSE_MOVE, EVT_MOUSE_DOWN, EVT_MOUSE_UP,
      EVT_KEY_DOWN, EVT_KEY_UP, EV_KEY, EV_ABS, BTN_TOUCH, ABS_X, ABS_Y,
      ABS_MT_SLOT, ABS_MT_POSITION_X, ABS_MT_POSITION_Y, ABS_MT_TRACKING_ID]

/-- C6, witness: a `DOWN` with the out-of-range slot id `arg3 = 15` is
applied to slot `9 = max 0 (min 9 15)`. -/
theorem C6_slot_clamped_witness :
    Prim.write EV_ABS ABS_MT_SLOT 9 ∈ (handle_event EVT_MOUSE_DOWN 3 4 15 0 ∅).2 :=
  ((C6_slot_clamped EVT_MOUSE_DOWN 3 4 15 0 ∅ (by decide) (by decide)
      (Or.inr (Or.inl rfl))).1 9).mpr (by decide)

/-- C9: whenever handling an event emits any device primitive at all, the
synchronization barrier `dev.syn()` is emitted exactly once and is the
last primitive of that event's micro-sequence, so no device-state write
follows it. -/
theorem C9_barrier_last (evt_type : ℕ) (arg1 arg2 arg3 arg4 : ℤ) (active : Finset ℤ)
    (h : (handle_event evt_type arg1 arg2 arg3 arg4 active).2 ≠ []) :
    List.count Prim.syn (handle_event evt_type arg1 arg2 arg3 arg4 active).2 = 1 ∧
    ((handle_event evt_type arg1 arg2 arg3 arg4 active).2).getLast? = some Prim.syn := by
  simp only [handle_event] at h ⊢
  split_ifs at h ⊢ <;>
    simp_all [List.count_append, List.count_cons, List.getLast?_concat,
      List.getLast?_append]

/-- C9, witness: the micro-sequence of a concrete `DOWN` is nonempty,
contains exactly one barrier, and ends with it. -/
theorem C9_barrier_last_witness :
    List.count Prim.syn (handle_event EVT_MOUSE_DOWN 100 200 0 0 ∅).2 = 1 ∧
    ((handle_event EVT_MOUSE_DOWN 100 200 0 0 ∅).2).getLast? = some Prim.syn :=
  C9_barrier_last EVT_MOUSE_DOWN 100 200 0 0 ∅ (by decide)

/-- Round-trip of one signed 16-bit field: decoding the two little-endian
bytes of an in-range value recovers it. -/
lemma decodeI16_encodeI16 (v : ℤ) (hl : -32768 ≤ v) (hh : v ≤ 32767) :
    decodeI16 ((v % 65536).toNat % 256) ((v % 65536).toNat / 256 % 256) = v := by
  simp only [decodeI16]
  split_ifs <;> omega

/-- C7: encoding an `InputEvent` whose fields are within their declared
ranges (`kind` a u8, `timestamp` a u32, `arg1..arg4` each an i16) to the
13-byte little-endian record and decoding that record yields the original
event. -/
theorem C7_roundtrip (e : InputEvent)
    (hk : e.kind < 256) (ht : e.timestamp < 4294967296)
    (h1l : -32768 ≤ e.arg1) (h1h : e.arg1 ≤ 32767)
    (h2l : -32768 ≤ e.arg2) (h2h : e.arg2 ≤ 32767)
    (h3l : -32768 ≤ e.arg3) (h3h : e.arg3 ≤ 32767)
    (h4l : -32768 ≤ e.arg4) (h4h : e.arg4 ≤ 32767) :
    decode_record (make_event e) = some e := by
  obtain ⟨k, t, a1, a2, a3, a4⟩ := e
  simp only at hk ht h1l h1h h2l h2h h3l h3h h4l h4h
  simp only [make_event, encodeU32, encodeI16, encodeU16, decode_record,
    List.cons_append, List.nil_append, List.length_cons, List.length_nil,
    unpack13, Option.some.injEq, InputEvent.mk.injEq]
  norm_num
  refine ⟨by omega, by omega, ?_, ?_, ?_, ?_⟩ <;>
    exact decodeI16_encodeI16 _ (by omega) (by omega)

/-- C7, witness: the round-trip evaluated at a concrete in-range event
(carrying a negative coordinate to exercise the two's-complement path). -/
theorem C7_roundtrip_witness :
    decode_record (make_event ⟨1, 5000, 100, -200, 9, 0⟩) =
      some ⟨1, 5000, 100, -200, 9, 0⟩ :=
  C7_roundtrip ⟨1, 5000, 100, -200, 9, 0⟩ (by decide) (by decide) (by decide)
    (by decide) (by decide) (by decide) (by decide) (by decide) (by decide) (by decide)

/-- A buffer shorter than one 13-byte record decodes to no events. -/
lemma decode_datagram_short (buf : List ℕ) (h : buf.length < 13) :
    decode_datagram buf = [] := by
  rcases buf with _ | ⟨b0, _ | ⟨b1, _ | ⟨b2, _ | ⟨b3, _ | ⟨b4, _ | ⟨b5, _ | ⟨b6,
    _ | ⟨b7, _ | ⟨b8, _ | ⟨b9, _ | ⟨b10, _ | ⟨b11, _ | ⟨b12, rest⟩⟩⟩⟩⟩⟩⟩⟩⟩⟩⟩⟩⟩ <;>
    simp_all [decode_datagram] <;> omega

/-- Peeling one whole 13-byte record off the front of a buffer. -/
lemma decode_datagram_cons (r rest : List ℕ) (hr : r.length = 13) :
    decode_datagram (r ++ rest) = unpack13 r :: decode_datagram rest := by
  rcases r with _ | ⟨b0, _ | ⟨b1, _ | ⟨b2, _ | ⟨b3, _ | ⟨b4, _ | ⟨b5, _ | ⟨b6,
    _ | ⟨b7, _ | ⟨b8, _ | ⟨b9, _ | ⟨b10, _ | ⟨b11, _ | ⟨b12, tail⟩⟩⟩⟩⟩⟩⟩⟩⟩⟩⟩⟩⟩ <;>
    simp_all [decode_datagram, unpack13, List.length_eq_zero]

/-- The greedy loop decodes exactly `⌊len/13⌋` events. -/
lemma decode_datagram_length (buf : List ℕ) :
    (decode_datagram buf).length = buf.length / 13 := by
  generalize hn : buf.length = n
  induction n using Nat.strong_induction_on generalizing buf with
  | _ n ih =>
    by_cases h : 13 ≤ buf.length
    · have h13 : (buf.take 13).length = 13 := by
        simp only [List.length_take]
        omega
      have hdrop : (buf.drop 13).length = buf.length - 13 := by
        simp only [List.length_drop]
      conv_lhs => rw [← List.take_append_drop 13 buf]
      rw [decode_datagram_cons _ _ h13]
      simp only [List.length_cons]
      rw [ih (buf.length - 13) (by omega) (buf.drop 13) hdrop]
      omega
    · rw [decode_datagram_short buf (by omega)]
      simp only [List.length_nil]
      omega

/-- C8: for every received buffer, the greedy batch decode yields exactly
`⌊len/13⌋` events, taken back-to-back from offset 0 in order, and silently
discards any trailing partial tail of fewer than 13 bytes; in particular a
buffer of 3 concatenated records plus a short tail yields exactly those 3
events and no error. -/
theorem C8_greedy_decode :
    (∀ buf : List ℕ, (decode_datagram buf).length = buf.length / 13) ∧
    (∀ r rest : List ℕ, r.length = 13 →
        decode_datagram (r ++ rest) = unpack13 r :: decode_datagram rest) ∧
    (∀ r1 r2 r3 t : List ℕ,
        r1.length = 13 → r2.length = 13 → r3.length = 13 → t.length < 13 →
        decode_datagram (r1 ++ (r2 ++ (r3 ++ t)))
          = [unpack13 r1, unpack13 r2, unpack13 r3]) := by
  refine ⟨decode_datagram_length, decode_datagram_cons, ?_⟩
  intro r1 r2 r3 t h1 h2 h3 ht
  rw [decode_datagram_cons r1 _ h1, decode_datagram_cons r2 _ h2,
    decode_datagram_cons r3 _ h3, decode_datagram_short t ht]

/-- C8, witness: three concrete encoded records followed by 5 trailing
bytes decode to exactly the three events, tail discarded. -/
theorem C8_greedy_decode_witness :
    decode_datagram (make_event ⟨0, 1, 10, 20, 0, 0⟩ ++ (make_event ⟨1, 2, 30, 40, 1, 0⟩
        ++ (make_event ⟨2, 3, 0, 0, 1, 0⟩ ++ [1, 2, 3, 4, 5]))) =
      [unpack13 (make_event ⟨0, 1, 10, 20, 0, 0⟩),
       unpack13 (make_event ⟨1, 2, 30, 40, 1, 0⟩),
       unpack13 (make_event ⟨2, 3, 0, 0, 1, 0⟩)] :=
  C8_greedy_decode.2.2 _ _ _ _ (by decide) (by decide) (by decide) (by decide)

/-- The clamped slot always lies in `[0, 9]`. -/
lemma clamped_slot_mem_Icc (arg3 : ℤ) : max 0 (min 9 arg3) ∈ Finset.Icc (0 : ℤ) 9 := by
  simp only [Finset.mem_Icc]
  omega

/-- The state component of `handle_event`: only `DOWN` and `UP` touch the
active-slot set. -/
lemma handle_event_fst (evt_type : ℕ) (a1 a2 a3 a4 : ℤ) (st : Finset ℤ) :
    (handle_event evt_type a1 a2 a3 a4 st).1 =
      if evt_type = EVT_MOUSE_DOWN then insert (max 0 (min 9 a3)) st
      else if evt_type = EVT_MOUSE_UP then st.erase (max 0 (min 9 a3))
      else st := by
  simp only [handle_event]
  split_ifs <;> simp_all [EVT_MOUSE_MOVE, EVT_MOUSE_DOWN, EVT_MOUSE_UP,
    EVT_KEY_DOWN, EVT_KEY_UP]

/-- One `handle_event` step keeps the active-slot set inside `[0, 9]`. -/
lemma handle_event_active_subset (evt_type : ℕ) (a1 a2 a3 a4 : ℤ) (st : Finset ℤ)
    (hst : st ⊆ Finset.Icc (0 : ℤ) 9) :
    (handle_event evt_type a1 a2 a3 a4 st).1 ⊆ Finset.Icc (0 : ℤ) 9 := by
  rw [handle_event_fst]
  split_ifs
  · exact Finset.insert_subset (clamped_slot_mem_Icc a3) hst
  · exact (Finset.erase_subset _ _).trans hst
  · exact hst

/-- Any event sequence applied from a set inside `[0, 9]` stays inside. -/
lemma applyEvents_subset (evs : List InputEvent) (st : Finset ℤ)
    (hst : st ⊆ Finset.Icc (0 : ℤ) 9) :
    applyEvents evs st ⊆ Finset.Icc (0 : ℤ) 9 := by
  induction evs generalizing st with
  | nil => exact hst
  | cons e rest ih =>
      exact ih _ (handle_event_active_subset e.kind e.arg1 e.arg2 e.arg3 e.arg4 st hst)

/-- C10: starting from the empty active-slot set, after any sequence of
`handle_event` calls every member of the active-slot set lies in
`[0, 9]` and the set has at most 10 members; moreover only `DOWN`/`UP`
events change the set — `DOWN` inserts the clamped slot, `UP` erases it,
and every other kind (including `MOVE`) leaves it unchanged. -/
theorem C10_active_slots_invariant (evs : List InputEvent) :
    (∀ x ∈ applyEvents evs ∅, 0 ≤ x ∧ x ≤ 9) ∧
    (applyEvents evs ∅).card ≤ 10 ∧
    (∀ (k : ℕ) (a1 a2 a3 a4 : ℤ) (st : Finset ℤ),
        k ≠ EVT_MOUSE_DOWN → k ≠ EVT_MOUSE_UP →
        (handle_event k a1 a2 a3 a4 st).1 = st) ∧
    (∀ (a1 a2 a3 a4 : ℤ) (st : Finset ℤ),
        (handle_event EVT_MOUSE_DOWN a1 a2 a3 a4 st).1
          = insert (max 0 (min 9 a3)) st) ∧
    (∀ (a1 a2 a3 a4 : ℤ) (st : Finset ℤ),
        (handle_event EVT_MOUSE_UP a1 a2 a3 a4 st).1
          = st.erase (max 0 (min 9 a3))) := by
  have hsub := applyEvents_subset evs ∅ (Finset.empty_subset _)
  refine ⟨fun x hx => ?_, ?_, ?_, ?_, ?_⟩
  · have := hsub hx
    simpa [Finset.mem_Icc] using this
  · calc (applyEvents evs ∅).card ≤ (Finset.Icc (0 : ℤ) 9).card :=
          Finset.card_le_card hsub
      _ = 10 := by decide
  · intro k a1 a2 a3 a4 st hk1 hk2
    rw [handle_event_fst]
    split_ifs <;> simp_all
  · intro a1 a2 a3 a4 st
    rfl
  · intro a1 a2 a3 a4 st
    rfl

/-- C10, witness: a `KEY_DOWN` leaves a concrete active-slot set
unchanged, and after a `DOWN` with out-of-range slot 15 from the empty
set the active-slot count is within bound. -/
theorem C10_active_slots_invariant_witness :
    (handle_event EVT_KEY_DOWN 30 0 0 0 {2}).1 = {2} ∧
    (applyEvents [⟨EVT_MOUSE_DOWN, 0, 3, 4, 15, 0⟩] ∅).card ≤ 10 :=
  ⟨(C10_active_slots_invariant []).2.2.1 EVT_KEY_DOWN 30 0 0 0 {2}
      (by decide) (by decide),
    (C10_active_slots_invariant [⟨EVT_MOUSE_DOWN, 0, 3, 4, 15, 0⟩]).2.1⟩

end StreamingServer
